import Mathlib

/-!
Verification of the Lufthansa flight-status client
(`travel_buddy/tools/lufthansa_api.py`).

The client is embedded shallowly: JSON values are an inductive type with
Python semantics for truthiness, `dict.get`, subscription and `str()`;
Python exceptions that the embedded fragments can raise (`AttributeError`,
`KeyError`, `TypeError`) are an error type threaded through `Except`;
the mutable token cache of `LufthansaAPIClient` is an explicit state, and
each HTTP exchange performed by a call is recorded in an event trace so
that properties about which requests are sent, in which order and with
which `Authorization` header can be stated.
-/

set_option autoImplicit false

namespace TravelBuddy

/-- JSON values as delivered by `response.json()`.  Numbers are modelled as
integers (no claim depends on fractional values). -/
inductive Json where
  | null
  | bool (b : Bool)
  | num (n : Int)
  | str (s : String)
  | arr (xs : List Json)
  | obj (kvs : List (String × Json))

mutual

/-- Decidable equality of JSON values (derivation does not handle the
nested inductive, so it is spelled out). -/
def Json.decEq : (a b : Json) → Decidable (a = b)
  | .null, .null => .isTrue rfl
  | .null, .bool _ => .isFalse (fun h => Json.noConfusion h)
  | .null, .num _ => .isFalse (fun h => Json.noConfusion h)
  | .null, .str _ => .isFalse (fun h => Json.noConfusion h)
  | .null, .arr _ => .isFalse (fun h => Json.noConfusion h)
  | .null, .obj _ => .isFalse (fun h => Json.noConfusion h)
  | .bool _, .null => .isFalse (fun h => Json.noConfusion h)
  | .bool x, .bool y =>
      if h : x = y then .isTrue (by rw [h]) else
        .isFalse (by intro hc; injection hc; contradiction)
  | .bool _, .num _ => .isFalse (fun h => Json.noConfusion h)
  | .bool _, .str _ => .isFalse (fun h => Json.noConfusion h)
  | .bool _, .arr _ => .isFalse (fun h => Json.noConfusion h)
  | .bool _, .obj _ => .isFalse (fun h => Json.noConfusion h)
  | .num _, .null => .isFalse (fun h => Json.noConfusion h)
  | .num _, .bool _ => .isFalse (fun h => Json.noConfusion h)
  | .num x, .num y =>
      if h : x = y then .isTrue (by rw [h]) else
        .isFalse (by intro hc; injection hc; contradiction)
  | .num _, .str _ => .isFalse (fun h => Json.noConfusion h)
  | .num _, .arr _ => .isFalse (fun h => Json.noConfusion h)
  | .num _, .obj _ => .isFalse (fun h => Json.noConfusion h)
  | .str _, .null => .isFalse (fun h => Json.noConfusion h)
  | .str _, .bool _ => .isFalse (fun h => Json.noConfusion h)
  | .str _, .num _ => .isFalse (fun h => Json.noConfusion h)
  | .str x, .str y =>
      if h : x = y then .isTrue (by rw [h]) else
        .isFalse (by intro hc; injection hc; contradiction)
  | .str _, .arr _ => .isFalse (fun h => Json.noConfusion h)
  | .str _, .obj _ => .isFalse (fun h => Json.noConfusion h)
  | .arr _, .null => .isFalse (fun h => Json.noConfusion h)
  | .arr _, .bool _ => .isFalse (fun h => Json.noConfusion h)
  | .arr _, .num _ => .isFalse (fun h => Json.noConfusion h)
  | .arr _, .str _ => .isFalse (fun h => Json.noConfusion h)
  | .arr xs, .arr ys =>
      match Json.decEqList xs ys with
      | .isTrue h => .isTrue (by rw [h])
      | .isFalse h => .isFalse (by intro hc; injection hc; contradiction)
  | .arr _, .obj _ => .isFalse (fun h => Json.noConfusion h)
  | .obj _, .null => .isFalse (fun h => Json.noConfusion h)
  | .obj _, .bool _ => .isFalse (fun h => Json.noConfusion h)
  | .obj _, .num _ => .isFalse (fun h => Json.noConfusion h)
  | .obj _, .str _ => .isFalse (fun h => Json.noConfusion h)
  | .obj _, .arr _ => .isFalse (fun h => Json.noConfusion h)
  | .obj xs, .obj ys =>
      match Json.decEqObj xs ys with
      | .isTrue h => .isTrue (by rw [h])
      | .isFalse h => .isFalse (by intro hc; injection hc; contradiction)

/-- Decidable equality of JSON arrays, elementwise. -/
def Json.decEqList : (a b : List Json) → Decidable (a = b)
  | [], [] => .isTrue rfl
  | [], _ :: _ => .isFalse (fun h => List.noConfusion h)
  | _ :: _, [] => .isFalse (fun h => List.noConfusion h)
  | x :: xs, y :: ys =>
      match Json.decEq x y with
      | .isFalse h => .isFalse (by intro hc; injection hc; contradiction)
      | .isTrue h1 =>
          match Json.decEqList xs ys with
          | .isTrue h2 => .isTrue (by rw [h1, h2])
          | .isFalse h => .isFalse (by intro hc; injection hc; contradiction)

/-- Decidable equality of JSON objects, entrywise. -/
def Json.decEqObj : (a b : List (String × Json)) → Decidable (a = b)
  | [], [] => .isTrue rfl
  | [], _ :: _ => .isFalse (fun h => List.noConfusion h)
  | _ :: _, [] => .isFalse (fun h => List.noConfusion h)
  | (k1, v1) :: xs, (k2, v2) :: ys =>
      if hk : k1 = k2 then
        match Json.decEq v1 v2 with
        | .isFalse h =>
            .isFalse (by
              intro hc
              injection hc with hp hr
              exact h (congrArg Prod.snd hp))
        | .isTrue h1 =>
            match Json.decEqObj xs ys with
            | .isTrue h2 => .isTrue (by rw [hk, h1, h2])
            | .isFalse h => .isFalse (by intro hc; injection hc; contradiction)
      else
        .isFalse (by
          intro hc
          injection hc with hp hr
          exact hk (congrArg Prod.fst hp))

end

instance : DecidableEq Json := Json.decEq

/-- Python truthiness (`bool(v)`) of a JSON value: `None`, `False`, `0`,
`""`, `[]` and `{}` are falsy, everything else truthy. -/
def Json.truthy : Json → Bool
  | .null => false
  | .bool b => b
  | .num n => n != 0
  | .str s => s != ""
  | .arr xs => !xs.isEmpty
  | .obj kvs => !kvs.isEmpty

/-- Python type name of a JSON value, used in exception messages. -/
def Json.pyTypeName : Json → String
  | .null => "NoneType"
  | .bool _ => "bool"
  | .num _ => "int"
  | .str _ => "str"
  | .arr _ => "list"
  | .obj _ => "dict"

mutual

/-- Python `repr()` of a JSON value (as it appears when a container is
interpolated into an f-string). -/
def Json.pyRepr : Json → String
  | .null => "None"
  | .bool true => "True"
  | .bool false => "False"
  | .num n => toString n
  | .str s => "\x27" ++ s ++ "\x27"
  | .arr xs => "[" ++ pyReprList xs ++ "]"
  | .obj kvs => "\x7b" ++ pyReprObj kvs ++ "\x7d"

/-- Comma-separated `repr()` of list elements. -/
def pyReprList : List Json → String
  | [] => ""
  | [v] => v.pyRepr
  | v :: rest => v.pyRepr ++ ", " ++ pyReprList rest

/-- Comma-separated `repr()` of dict entries. -/
def pyReprObj : List (String × Json) → String
  | [] => ""
  | [(k, v)] => "\x27" ++ k ++ "\x27: " ++ v.pyRepr
  | (k, v) :: rest => "\x27" ++ k ++ "\x27: " ++ v.pyRepr ++ ", " ++ pyReprObj rest

end

/-- Python `str()` of a JSON value, the semantics of f-string interpolation. -/
def Json.pyStr : Json → String
  | .str s => s
  | v => v.pyRepr

/-- Python exceptions that the embedded pure fragments can raise. -/
inductive PyErr where
  | attrError (msg : String)
  | keyError (msg : String)
  | typeError (msg : String)
  deriving DecidableEq

/-- The message carried by an exception, the semantics of `str(e)`. -/
def PyErr.pyMsg : PyErr → String
  | .attrError m => m
  | .keyError m => m
  | .typeError m => m

/-- The empty Python dict `\x7b\x7d`. -/
def emptyObj : Json := .obj []

/-- The empty Python list `[]`. -/
def emptyList : Json := .arr []

/-- Python `value.get(key, default)`: dict lookup with a default; any
non-dict value raises `AttributeError` (it has no `get` method). -/
def pyGet (v : Json) (k : String) (d : Json) : Except PyErr Json :=
  match v with
  | .obj kvs => .ok ((List.lookup k kvs).getD d)
  | other =>
      .error (.attrError ("\x27" ++ other.pyTypeName ++
        "\x27 object has no attribute \x27get\x27"))

/-- Python `value[key]` for a string key: `KeyError` when a dict misses the
key, `TypeError` when the value is not subscriptable by a string. -/
def pySubscript (v : Json) (k : String) : Except PyErr Json :=
  match v with
  | .obj kvs =>
      match List.lookup k kvs with
      | some x => .ok x
      | none => .error (.keyError ("\x27" ++ k ++ "\x27"))
  | .arr _ => .error (.typeError ("list indices must be integers or slices, not str"))
  | .str _ => .error (.typeError ("string indices must be integers"))
  | other => .error (.typeError ("\x27" ++ other.pyTypeName ++ "\x27 object is not subscriptable"))

/-- Whether a JSON value is hashable in Python (usable as a dict key). -/
def Json.pyHashable : Json → Bool
  | .arr _ => false
  | .obj _ => false
  | _ => true

/-- The closed `status_map` table of `_get_status_description`. -/
def statusMap : List (String × String) :=
  [("CD", "Cancelled"),
   ("DP", "Departed"),
   ("LD", "Landed"),
   ("RT", "Rerouted"),
   ("DV", "Diverted"),
   ("HD", "On Hold"),
   ("FE", "Flight Early"),
   ("NI", "Next Information"),
   ("OT", "On Time"),
   ("DL", "Delayed"),
   ("NO", "No Status")]

/-- `_get_status_description(code)`: `status_map.get(code, f"Unknown (\x7bcode\x7d)")`.
A string key is looked up in the table; any other hashable value misses the
table (its keys are all strings) and yields the default; an unhashable
value (`dict`, `list`) raises `TypeError` from `dict.get`. -/
def getStatusDescription (code : Json) : Except PyErr String :=
  if code.pyHashable then
    match code with
    | .str c => .ok ((List.lookup c statusMap).getD ("Unknown (" ++ c ++ ")"))
    | other => .ok ("Unknown (" ++ other.pyStr ++ ")")
  else
    .error (.typeError ("unhashable type: \x27" ++ code.pyTypeName ++ "\x27"))

/-- The try-body of `_parse_flight_status`, statement by statement.  The
`flights[0] if isinstance(flights, list) else flights` selection is only
reached when `flights` is truthy, so a list there is non-empty. -/
def parseFlightStatusBody (response : Json) : Except PyErr Json := do
  let flightData ← pyGet response ("FlightStatusResource") emptyObj
  let flightsContainer ← pyGet flightData ("Flights") emptyObj
  let flights ← pyGet flightsContainer ("Flight") emptyList
  if !flights.truthy then
    return .obj [("error", .str ("No flight data in response"))]
  let flight := match flights with
    | .arr (x :: _) => x
    | other => other
  let departure ← pyGet flight ("Departure") emptyObj
  let arrival ← pyGet flight ("Arrival") emptyObj
  let status ← pyGet flight ("FlightStatus") emptyObj
  let equipment ← pyGet flight ("Equipment") emptyObj
  let mcFlight ← pyGet flight ("MarketingCarrier") emptyObj
  let flightNumber ← pyGet mcFlight ("FlightNumber") (.str (""))
  let mcAirline ← pyGet flight ("MarketingCarrier") emptyObj
  let airline ← pyGet mcAirline ("AirlineID") (.str (""))
  let statusCode ← pyGet status ("Code") (.str ("unknown"))
  let statusCodeForDesc ← pyGet status ("Code") (.str (""))
  let statusDescription ← getStatusDescription statusCodeForDesc
  let depAirport ← pyGet departure ("AirportCode") (.str (""))
  let depTerminalForName ← pyGet departure ("Terminal") emptyObj
  let depTerminal ← pyGet depTerminalForName ("Name") (.str (""))
  let depTerminalForGate ← pyGet departure ("Terminal") emptyObj
  let depGate ← pyGet depTerminalForGate ("Gate") (.str (""))
  let depSchedObj ← pyGet departure ("ScheduledTimeLocal") emptyObj
  let depScheduled ← pyGet depSchedObj ("DateTime") (.str (""))
  let depEstObj ← pyGet departure ("EstimatedTimeLocal") emptyObj
  let depEstimated ← pyGet depEstObj ("DateTime") (.str (""))
  let depActObj ← pyGet departure ("ActualTimeLocal") emptyObj
  let depActual ← pyGet depActObj ("DateTime") (.str (""))
  let arrAirport ← pyGet arrival ("AirportCode") (.str (""))
  let arrTerminalForName ← pyGet arrival ("Terminal") emptyObj
  let arrTerminal ← pyGet arrTerminalForName ("Name") (.str (""))
  let arrTerminalForGate ← pyGet arrival ("Terminal") emptyObj
  let arrGate ← pyGet arrTerminalForGate ("Gate") (.str (""))
  let arrSchedObj ← pyGet arrival ("ScheduledTimeLocal") emptyObj
  let arrScheduled ← pyGet arrSchedObj ("DateTime") (.str (""))
  let arrEstObj ← pyGet arrival ("EstimatedTimeLocal") emptyObj
  let arrEstimated ← pyGet arrEstObj ("DateTime") (.str (""))
  let arrActObj ← pyGet arrival ("ActualTimeLocal") emptyObj
  let arrActual ← pyGet arrActObj ("DateTime") (.str (""))
  let acCode ← pyGet equipment ("AircraftCode") (.str (""))
  let acRegistration ← pyGet equipment ("AircraftRegistration") (.str (""))
  return .obj
    [("flight", flightNumber),
     ("airline", airline),
     ("status", statusCode),
     ("status_description", .str statusDescription),
     ("departure", .obj
       [("airport", depAirport),
        ("terminal", depTerminal),
        ("gate", depGate),
        ("scheduled", depScheduled),
        ("estimated", depEstimated),
        ("actual", depActual)]),
     ("arrival", .obj
       [("airport", arrAirport),
        ("terminal", arrTerminal),
        ("gate", arrGate),
        ("scheduled", arrScheduled),
        ("estimated", arrEstimated),
        ("actual", arrActual)]),
     ("aircraft", .obj
       [("code", acCode),
        ("registration", acRegistration)])]

/-- `_parse_flight_status`: the try-body wrapped in
`except (KeyError, TypeError)`, which converts those two exception classes
into an `\x7berror, raw\x7d` dict; any other exception propagates. -/
def parseFlightStatus (response : Json) : Except PyErr Json :=
  match parseFlightStatusBody response with
  | .ok v => .ok v
  | .error e =>
      match e with
      | .keyError _ =>
          .ok (.obj [("error", .str ("Failed to parse flight status: " ++ e.pyMsg)),
                     ("raw", response)])
      | .typeError _ =>
          .ok (.obj [("error", .str ("Failed to parse flight status: " ++ e.pyMsg)),
                     ("raw", response)])
      | .attrError _ => .error e

/-- `_parse_single_flight(flight)`: flattens one flight entry of a route
response; the `flight` field is the f-string
`f"\x7bAirlineID\x7d\x7bFlightNumber\x7d"`. -/
def parseSingleFlight (flight : Json) : Except PyErr Json := do
  let departure ← pyGet flight ("Departure") emptyObj
  let arrival ← pyGet flight ("Arrival") emptyObj
  let mcAirline ← pyGet flight ("MarketingCarrier") emptyObj
  let airlineId ← pyGet mcAirline ("AirlineID") (.str (""))
  let mcFlight ← pyGet flight ("MarketingCarrier") emptyObj
  let flightNumber ← pyGet mcFlight ("FlightNumber") (.str (""))
  let flightStatus ← pyGet flight ("FlightStatus") emptyObj
  let statusCode ← pyGet flightStatus ("Code") (.str (""))
  let depSchedObj ← pyGet departure ("ScheduledTimeLocal") emptyObj
  let departureTime ← pyGet depSchedObj ("DateTime") (.str (""))
  let arrSchedObj ← pyGet arrival ("ScheduledTimeLocal") emptyObj
  let arrivalTime ← pyGet arrSchedObj ("DateTime") (.str (""))
  let origin ← pyGet departure ("AirportCode") (.str (""))
  let destination ← pyGet arrival ("AirportCode") (.str (""))
  return .obj
    [("flight", .str (airlineId.pyStr ++ flightNumber.pyStr)),
     ("status", statusCode),
     ("departure_time", departureTime),
     ("arrival_time", arrivalTime),
     ("origin", origin),
     ("destination", destination)]

/-- The try-body of `_parse_route_flights`: normalizes `Flights.Flight` to a
list (`[flights] if flights else []` when it is not one) and maps
`_parse_single_flight` over it. -/
def parseRouteFlightsBody (response : Json) : Except PyErr Json := do
  let flightData ← pyGet response ("FlightStatusResource") emptyObj
  let flightsContainer ← pyGet flightData ("Flights") emptyObj
  let flights ← pyGet flightsContainer ("Flight") emptyList
  let flightList := match flights with
    | .arr xs => xs
    | other => if other.truthy then [other] else []
  let parsed ← flightList.mapM parseSingleFlight
  return .obj [("flights", .arr parsed), ("count", .num parsed.length)]

/-- `_parse_route_flights`: the try-body wrapped in
`except (KeyError, TypeError)`, which converts those two exception classes
into `\x7bflights: [], error: str(e)\x7d`; any other exception propagates. -/
def parseRouteFlights (response : Json) : Except PyErr Json :=
  match parseRouteFlightsBody response with
  | .ok v => .ok v
  | .error e =>
      match e with
      | .keyError _ => .ok (.obj [("flights", emptyList), ("error", .str e.pyMsg)])
      | .typeError _ => .ok (.obj [("flights", emptyList), ("error", .str e.pyMsg)])
      | .attrError _ => .error e

/-- LUFTHANSA_API_BASE_URL from config.py. -/
def LUFTHANSA_API_BASE_URL : String := "https://api.lufthansa.com/v1"

/-- LUFTHANSA_AUTH_URL from config.py. -/
def LUFTHANSA_AUTH_URL : String := "https://api.lufthansa.com/v1/oauth/token"

/-- The mutable token cache of a `LufthansaAPIClient` instance:
`self._access_token` (initially `None`) and `self._token_expires_at`
(initially `0`).  The stored token is whatever JSON value the auth body
carried under `access_token`. -/
structure ClientState where
  accessToken : Option Json
  tokenExpiresAt : Int
  deriving DecidableEq

/-- The state set up by `__init__`. -/
def initialState : ClientState := { accessToken := none, tokenExpiresAt := 0 }

/-- Outcome the network would deliver for one HTTP exchange: a transport
failure (`requests.RequestException` that is not an `HTTPError`), or a
response with status code, body text and parsed JSON body. -/
inductive HttpOutcome where
  | netErr (msg : String)
  | resp (status : Nat) (text : String) (body : Json)
  deriving DecidableEq

/-- The external world of one client call: the two `time.time()` readings
(`now` at the token-validity check, `now2` when a fresh expiry is
computed) and the outcomes the auth POST and the data request would
produce if performed. -/
structure Env where
  now : Int
  now2 : Int
  auth : HttpOutcome
  data : HttpOutcome
  deriving DecidableEq

/-- One observable HTTP request issued by the client, in order. -/
inductive Event where
  | authCall
  | dataCall (method : String) (url : String) (authorization : String)
      (params : List (String × Json))
  deriving DecidableEq

/-- Exceptions surfaced by `_make_request` and the public methods:
`RuntimeError` (auth failure), `requests.HTTPError` (carries the response
status code and body text), other `requests.RequestException`s, and plain
Python exceptions that escape (`KeyError`, `TypeError`, `AttributeError`). -/
inductive ReqError where
  | runtimeError (msg : String)
  | httpError (status : Nat) (text : String)
  | requestError (msg : String)
  | pyErr (e : PyErr)
  deriving DecidableEq

/-- Result of one client call: the HTTP requests it issued in order, its
return value or raised exception, and the token cache afterwards. -/
structure StepResult (α : Type) where
  trace : List Event
  result : Except ReqError α
  state : ClientState

/-- Decidable equality for `Except` results. -/
def exceptDecEq {ε α : Type} [DecidableEq ε] [DecidableEq α] :
    (a b : Except ε α) → Decidable (a = b)
  | .error x, .error y =>
      if h : x = y then .isTrue (by rw [h]) else
        .isFalse (by intro hc; injection hc; contradiction)
  | .error _, .ok _ => .isFalse (fun h => Except.noConfusion h)
  | .ok _, .error _ => .isFalse (fun h => Except.noConfusion h)
  | .ok x, .ok y =>
      if h : x = y then .isTrue (by rw [h]) else
        .isFalse (by intro hc; injection hc; contradiction)

instance {ε α : Type} [DecidableEq ε] [DecidableEq α] : DecidableEq (Except ε α) :=
  exceptDecEq

instance {α : Type} [DecidableEq α] : DecidableEq (StepResult α) := by
  intro a b
  cases a
  cases b
  exact decidable_of_iff _ (iff_of_eq (StepResult.mk.injEq _ _ _ _ _ _).symm)

/-- Python `time.time() + expires_in`: numbers (and bools, which are ints)
add to the clock value; any other operand raises `TypeError`. -/
def pyTimeAdd (t : Int) (v : Json) : Except PyErr Int :=
  match v with
  | .num n => .ok (t + n)
  | .bool b => .ok (t + (if b then 1 else 0))
  | other =>
      .error (.typeError ("unsupported operand type(s) for +: \x27float\x27 and \x27" ++
        other.pyTypeName ++ "\x27"))

/-- The refresh path of `_get_access_token`: POST to the auth endpoint,
`raise_for_status` (raises `HTTPError` exactly for 4xx and 5xx status
codes, 400 <= status < 600; an `HTTPError` is a `RequestException`, so it
is caught and wrapped in `RuntimeError` like a transport failure), then
`token_data["access_token"]` (a `KeyError` or `TypeError` here propagates:
the except clause catches only `RequestException`),
`token_data.get("expires_in", 36000)`, and
`self._token_expires_at = time.time() + expires_in`.  The token field is
assigned before the expiry is computed, so a `TypeError` from a
non-numeric `expires_in` leaves the token updated and the expiry stale. -/
def refreshToken (st : ClientState) (env : Env) : StepResult Json :=
  match env.auth with
  | .netErr msg =>
      { trace := [.authCall],
        result := .error (.runtimeError ("Lufthansa API authentication failed: " ++ msg)),
        state := st }
  | .resp status text body =>
      if 400 ≤ status ∧ status < 600 then
        { trace := [.authCall],
          result := .error (.runtimeError ("Lufthansa API authentication failed: " ++
            toString status ++ " error for url " ++ LUFTHANSA_AUTH_URL ++ ": " ++ text)),
          state := st }
      else
        match pySubscript body ("access_token") with
        | .error e => { trace := [.authCall], result := .error (.pyErr e), state := st }
        | .ok tok =>
            let st1 : ClientState := { st with accessToken := some tok }
            match pyGet body ("expires_in") (.num 36000) with
            | .error e => { trace := [.authCall], result := .error (.pyErr e), state := st1 }
            | .ok expiresIn =>
                match pyTimeAdd env.now2 expiresIn with
                | .error e => { trace := [.authCall], result := .error (.pyErr e), state := st1 }
                | .ok expiry =>
                    { trace := [.authCall], result := .ok tok,
                      state := { st1 with tokenExpiresAt := expiry } }

/-- `_get_access_token`: reuse the cached token when
`self._access_token and time.time() < self._token_expires_at - 60`
(no HTTP call, state unchanged), otherwise refresh. -/
def getAccessToken (st : ClientState) (env : Env) : StepResult Json :=
  match st.accessToken with
  | some tok =>
      if tok.truthy ∧ env.now < st.tokenExpiresAt - 60 then
        { trace := [], result := .ok tok, state := st }
      else refreshToken st env
  | none => refreshToken st env

/-- `_make_request(method, endpoint, params)`: obtain a token, then issue
the data request with header `Authorization: Bearer <token>`;
`raise_for_status` raises `HTTPError` exactly for 4xx and 5xx status
codes (400 <= status < 600), transport failures raise `RequestException`,
and any other status (including 600 and above) returns the JSON body. -/
def makeRequest (st : ClientState) (env : Env) (method endpoint : String)
    (params : List (String × Json)) : StepResult Json :=
  let a := getAccessToken st env
  match a.result with
  | .error e => { trace := a.trace, result := .error e, state := a.state }
  | .ok token =>
      let url := LUFTHANSA_API_BASE_URL ++ endpoint
      let trace := a.trace ++ [.dataCall method url ("Bearer " ++ token.pyStr) params]
      match env.data with
      | .netErr msg =>
          { trace := trace, result := .error (.requestError msg), state := a.state }
      | .resp status text body =>
          if 400 ≤ status ∧ status < 600 then
            { trace := trace, result := .error (.httpError status text), state := a.state }
          else
            { trace := trace, result := .ok body, state := a.state }

/-- `get_flight_status(flight_number, date)`: request the per-flight
endpoint and parse; an `HTTPError` with status 404 is converted into
`\x7berror: "Flight <n> not found for <date>"\x7d`, every other exception
propagates. -/
def get_flight_status (st : ClientState) (env : Env) (flightNumber date : String) :
    StepResult Json :=
  let endpoint := "/operations/flightstatus/" ++ flightNumber ++ "/" ++ date
  let r := makeRequest st env ("GET") endpoint []
  match r.result with
  | .ok body =>
      match parseFlightStatus body with
      | .ok v => { trace := r.trace, result := .ok v, state := r.state }
      | .error e => { trace := r.trace, result := .error (.pyErr e), state := r.state }
  | .error (.httpError status _) =>
      if status = 404 then
        { trace := r.trace,
          result := .ok (.obj [("error",
            .str ("Flight " ++ flightNumber ++ " not found for " ++ date))]),
          state := r.state }
      else r
  | .error _ => r

/-- `get_flight_status_by_route(origin, destination, date)`: request the
route endpoint and parse; an `HTTPError` with status 404 is converted into
`\x7bflights: [], message: "No flights found <o>→<d> on <date>"\x7d`, every
other exception propagates. -/
def get_flight_status_by_route (st : ClientState) (env : Env)
    (origin destination date : String) : StepResult Json :=
  let endpoint := "/operations/flightstatus/route/" ++ origin ++ "/" ++
    destination ++ "/" ++ date
  let r := makeRequest st env ("GET") endpoint []
  match r.result with
  | .ok body =>
      match parseRouteFlights body with
      | .ok v => { trace := r.trace, result := .ok v, state := r.state }
      | .error e => { trace := r.trace, result := .error (.pyErr e), state := r.state }
  | .error (.httpError status _) =>
      if status = 404 then
        { trace := r.trace,
          result := .ok (.obj [("flights", emptyList), ("message",
            .str ("No flights found " ++ origin ++ "→" ++ destination ++ " on " ++ date))]),
          state := r.state }
      else r
  | .error _ => r

/-- `get_arrivals(airport, from_time, limit)` (limit defaults to 20 at the
Python call site): a plain `_make_request` with a `limit` query parameter
and no exception handling of its own. -/
def get_arrivals (st : ClientState) (env : Env) (airport fromTime : String)
    (limit : Int) : StepResult Json :=
  let endpoint := "/operations/flightstatus/arrivals/" ++ airport ++ "/" ++ fromTime
  makeRequest st env ("GET") endpoint [("limit", .num limit)]

/-- `get_departures(airport, from_time, limit)` (limit defaults to 20 at
the Python call site): a plain `_make_request` with a `limit` query
parameter and no exception handling of its own. -/
def get_departures (st : ClientState) (env : Env) (airport fromTime : String)
    (limit : Int) : StepResult Json :=
  let endpoint := "/operations/flightstatus/departures/" ++ airport ++ "/" ++ fromTime
  makeRequest st env ("GET") endpoint [("limit", .num limit)]

/-- `get_schedules(origin, destination, date, direct_flights)`: a
`_make_request` whose `HTTPError` with status 404 is converted into
`\x7bschedules: [], message: "No schedules found"\x7d`; every other
exception propagates. -/
def get_schedules (st : ClientState) (env : Env) (origin destination date : String)
    (directFlights : Bool) : StepResult Json :=
  let endpoint := "/operations/schedules/" ++ origin ++ "/" ++ destination ++ "/" ++ date
  let r := makeRequest st env ("GET") endpoint [("directFlights", .bool directFlights)]
  match r.result with
  | .error (.httpError status _) =>
      if status = 404 then
        { trace := r.trace,
          result := .ok (.obj [("schedules", emptyList),
            ("message", .str ("No schedules found"))]),
          state := r.state }
      else r
  | _ => r

/-- Whether `_get_access_token` reuses the cache at clock reading `now`:
the Python guard `self._access_token and time.time() < self._token_expires_at - 60`. -/
def cachedTokenUsable (st : ClientState) (now : Int) : Bool :=
  match st.accessToken with
  | some tok => tok.truthy && decide (now < st.tokenExpiresAt - 60)
  | none => false

/-- Whether the parsers' `except (KeyError, TypeError)` clause catches an
exception. -/
def PyErr.isCaught : PyErr → Bool
  | .keyError _ => true
  | .typeError _ => true
  | .attrError _ => false

/-- A minimal response whose `FlightStatusResource.Flights.Flight` field is
the given value. -/
def wrapFlight (v : Json) : Json :=
  .obj [("FlightStatusResource", .obj [("Flights", .obj [("Flight", v)])])]

/-- The extraction prefix shared by both parsers:
`response.get("FlightStatusResource", \x7b\x7d).get("Flights", \x7b\x7d).get("Flight", [])`. -/
def extractFlights (response : Json) : Except PyErr Json := do
  let flightData ← pyGet response ("FlightStatusResource") emptyObj
  let flightsContainer ← pyGet flightData ("Flights") emptyObj
  pyGet flightsContainer ("Flight") emptyList

section Lemmas

/-- When the cached token passes the validity guard, `_get_access_token`
performs no HTTP call and returns it with the state unchanged. -/
theorem getAccessToken_of_usable (st : ClientState) (env : Env) (tok : Json)
    (h : st.accessToken = some tok) (ht : tok.truthy = true)
    (hf : env.now < st.tokenExpiresAt - 60) :
    getAccessToken st env = { trace := [], result := .ok tok, state := st } := by
  unfold getAccessToken
  rw [h]
  dsimp only
  rw [if_pos ⟨ht, hf⟩]

/-- When the guard fails, `_get_access_token` is the refresh path. -/
theorem getAccessToken_of_stale (st : ClientState) (env : Env)
    (h : cachedTokenUsable st env.now = false) :
    getAccessToken st env = refreshToken st env := by
  unfold getAccessToken
  unfold cachedTokenUsable at h
  cases hA : st.accessToken with
  | none => rfl
  | some tok =>
      rw [hA] at h
      dsimp only at h ⊢
      have hnc : ¬(tok.truthy = true ∧ env.now < st.tokenExpiresAt - 60) := by
        rintro ⟨h1, h2⟩
        rw [h1] at h
        simp at h
        omega
      rw [if_neg hnc]

/-- The refresh path performs exactly the auth call. -/
theorem refreshToken_trace (st : ClientState) (env : Env) :
    (refreshToken st env).trace = [Event.authCall] := by
  unfold refreshToken
  cases env.auth with
  | netErr m => rfl
  | resp s t b =>
      dsimp only
      split
      · rfl
      · split
        · rfl
        · split
          · rfl
          · split
            · rfl
            · rfl

/-- A successful refresh stores the returned token in the cache. -/
theorem refreshToken_ok_state (st : ClientState) (env : Env) (tok : Json)
    (h : (refreshToken st env).result = .ok tok) :
    (refreshToken st env).state.accessToken = some tok := by
  unfold refreshToken at h ⊢
  cases hE : env.auth with
  | netErr m =>
      rw [hE] at h
      dsimp only at h
      exact absurd h (by simp)
  | resp s t b =>
      rw [hE] at h
      dsimp only at h ⊢
      by_cases h4 : 400 ≤ s ∧ s < 600
      · rw [if_pos h4] at h
        exact absurd h (by simp)
      · rw [if_neg h4] at h ⊢
        cases hsub : pySubscript b ("access_token") with
        | error e =>
            rw [hsub] at h
            dsimp only at h
            exact absurd h (by simp)
        | ok tk =>
            rw [hsub] at h
            dsimp only at h ⊢
            cases hged : pyGet b ("expires_in") (.num 36000) with
            | error e =>
                rw [hged] at h
                dsimp only at h
                exact absurd h (by simp)
            | ok ei =>
                rw [hged] at h
                dsimp only at h ⊢
                cases hadd : pyTimeAdd env.now2 ei with
                | error e =>
                    rw [hadd] at h
                    dsimp only at h
                    exact absurd h (by simp)
                | ok ex =>
                    rw [hadd] at h
                    dsimp only at h ⊢
                    simp only [Except.ok.injEq] at h
                    subst h
                    rfl

/-- `_make_request` with a usable token: the trace appends the data call to
the token-acquisition trace, and the state is the token-acquisition state. -/
theorem makeRequest_ok (st : ClientState) (env : Env) (tok : Json)
    (method endpoint : String) (params : List (String × Json))
    (h : (getAccessToken st env).result = .ok tok) :
    (makeRequest st env method endpoint params).trace =
      (getAccessToken st env).trace ++
        [Event.dataCall method (LUFTHANSA_API_BASE_URL ++ endpoint)
          ("Bearer " ++ tok.pyStr) params] ∧
    (makeRequest st env method endpoint params).state = (getAccessToken st env).state ∧
    (makeRequest st env method endpoint params).result =
      (match env.data with
       | .netErr msg => .error (.requestError msg)
       | .resp status text body =>
           if 400 ≤ status ∧ status < 600 then .error (.httpError status text)
           else .ok body) := by
  rcases hg : getAccessToken st env with ⟨atr, ares, ast⟩
  rw [hg] at h
  dsimp only at h
  subst h
  unfold makeRequest
  rw [hg]
  dsimp only
  cases env.data with
  | netErr m => exact ⟨rfl, rfl, rfl⟩
  | resp s t b =>
      dsimp only
      by_cases h4 : 400 ≤ s ∧ s < 600
      · rw [if_pos h4, if_pos h4]
        exact ⟨rfl, rfl, rfl⟩
      · rw [if_neg h4, if_neg h4]
        exact ⟨rfl, rfl, rfl⟩

/-- `_make_request` when token acquisition raises: the exception and the
partial state propagate and no data call is issued. -/
theorem makeRequest_err (st : ClientState) (env : Env) (e : ReqError)
    (method endpoint : String) (params : List (String × Json))
    (h : (getAccessToken st env).result = .error e) :
    makeRequest st env method endpoint params =
      { trace := (getAccessToken st env).trace, result := .error e,
        state := (getAccessToken st env).state } := by
  rcases hg : getAccessToken st env with ⟨atr, ares, ast⟩
  rw [hg] at h
  dsimp only at h
  subst h
  unfold makeRequest
  rw [hg]

/-- A data response whose status `raise_for_status` does not raise for
(anything outside 400-599, e.g. 2xx or 600 and above) makes
`_make_request` return its JSON body. -/
theorem makeRequest_result_ok (st : ClientState) (env : Env) (tok : Json)
    (method endpoint : String) (params : List (String × Json))
    (status : Nat) (t : String) (body : Json)
    (htok : (getAccessToken st env).result = .ok tok)
    (hdata : env.data = .resp status t body)
    (hok : ¬(400 ≤ status ∧ status < 600)) :
    (makeRequest st env method endpoint params).result = .ok body := by
  obtain ⟨-, -, h3⟩ := makeRequest_ok st env tok method endpoint params htok
  rw [hdata] at h3
  dsimp only at h3
  rw [if_neg hok] at h3
  exact h3

/-- A data response with a 4xx or 5xx status makes `_make_request` raise
an `HTTPError` carrying the status code and body text. -/
theorem makeRequest_result_httpError (st : ClientState) (env : Env) (tok : Json)
    (method endpoint : String) (params : List (String × Json))
    (status : Nat) (t : String) (body : Json)
    (htok : (getAccessToken st env).result = .ok tok)
    (hdata : env.data = .resp status t body) (h4 : 400 ≤ status)
    (h6 : status < 600) :
    (makeRequest st env method endpoint params).result = .error (.httpError status t) := by
  obtain ⟨-, -, h3⟩ := makeRequest_ok st env tok method endpoint params htok
  rw [hdata] at h3
  dsimp only at h3
  rw [if_pos ⟨h4, h6⟩] at h3
  exact h3

/-- A falsy `Flights.Flight` extraction makes the status-parse body return
the "No flight data in response" dict. -/
theorem parseFlightStatusBody_no_data (response v : Json)
    (hext : extractFlights response = .ok v) (hfalsy : v.truthy = false) :
    parseFlightStatusBody response =
      .ok (.obj [("error", .str ("No flight data in response"))]) := by
  unfold extractFlights at hext
  unfold parseFlightStatusBody
  cases h1 : pyGet response ("FlightStatusResource") emptyObj with
  | error e =>
      rw [h1] at hext
      simp [Bind.bind, Except.bind] at hext
  | ok fd =>
      rw [h1] at hext
      simp only [Bind.bind, Except.bind] at hext ⊢
      cases h2 : pyGet fd ("Flights") emptyObj with
      | error e =>
          rw [h2] at hext
          simp at hext
      | ok fc =>
          rw [h2] at hext
          simp only [] at hext ⊢
          cases h3 : pyGet fc ("Flight") emptyList with
          | error e =>
              rw [h3] at hext
              simp at hext
          | ok fl =>
              rw [h3] at hext
              simp only [Except.ok.injEq] at hext
              subst hext
              simp [hfalsy, pure, Except.pure]

end Lemmas

/-- C8: the status-code translation is total on strings: each of the
eleven table codes maps to its fixed description (in particular DL to
"Delayed"), and every string outside the table maps to "Unknown (<c>)". -/
theorem statusDescription_total :
    getStatusDescription (.str ("CD")) = .ok ("Cancelled") ∧
    getStatusDescription (.str ("DP")) = .ok ("Departed") ∧
    getStatusDescription (.str ("LD")) = .ok ("Landed") ∧
    getStatusDescription (.str ("RT")) = .ok ("Rerouted") ∧
    getStatusDescription (.str ("DV")) = .ok ("Diverted") ∧
    getStatusDescription (.str ("HD")) = .ok ("On Hold") ∧
    getStatusDescription (.str ("FE")) = .ok ("Flight Early") ∧
    getStatusDescription (.str ("NI")) = .ok ("Next Information") ∧
    getStatusDescription (.str ("OT")) = .ok ("On Time") ∧
    getStatusDescription (.str ("DL")) = .ok ("Delayed") ∧
    getStatusDescription (.str ("NO")) = .ok ("No Status") ∧
    (∀ c : String, List.lookup c statusMap = none →
      getStatusDescription (.str c) = .ok ("Unknown (" ++ c ++ ")")) := by
  refine ⟨rfl, rfl, rfl, rfl, rfl, rfl, rfl, rfl, rfl, rfl, rfl, ?_⟩
  intro c h
  unfold getStatusDescription
  simp [Json.pyHashable, h]

/-- Witness for C8: the translation at the concrete inputs DL and ZZ. -/
theorem statusDescription_total_witness :
    getStatusDescription (.str ("DL")) = .ok ("Delayed") ∧
    getStatusDescription (.str ("ZZ")) = .ok ("Unknown (ZZ)") :=
  ⟨statusDescription_total.2.2.2.2.2.2.2.2.2.1,
   statusDescription_total.2.2.2.2.2.2.2.2.2.2.2 ("ZZ") (by decide)⟩

/-- C4: with a cached token that is truthy and has more than 60 seconds
until expiry, a request reuses it: no auth call appears in the trace, the
data call carries the cached token, and the token state is unchanged. -/
theorem cached_token_reused (st : ClientState) (env : Env) (tok : Json)
    (method endpoint : String) (params : List (String × Json))
    (h : st.accessToken = some tok) (ht : tok.truthy = true)
    (hf : env.now < st.tokenExpiresAt - 60) :
    (makeRequest st env method endpoint params).trace =
      [Event.dataCall method (LUFTHANSA_API_BASE_URL ++ endpoint)
        ("Bearer " ++ tok.pyStr) params] ∧
    Event.authCall ∉ (makeRequest st env method endpoint params).trace ∧
    (makeRequest st env method endpoint params).state = st := by
  have hg := getAccessToken_of_usable st env tok h ht hf
  have hr : (getAccessToken st env).result = .ok tok := by rw [hg]
  obtain ⟨h1, h2, _⟩ := makeRequest_ok st env tok method endpoint params hr
  rw [hg] at h1 h2
  refine ⟨by simpa using h1, ?_, by simpa using h2⟩
  rw [h1]
  simp

/-- Witness for C4: a concrete cached-token state and environment. -/
theorem cached_token_reused_witness :
    (makeRequest { accessToken := some (.str ("T1")), tokenExpiresAt := 1000 }
        { now := 100, now2 := 101, auth := .netErr ("unused"),
          data := .resp 200 ("") .null } ("GET") ("/x") []).trace =
      [Event.dataCall ("GET") (LUFTHANSA_API_BASE_URL ++ "/x") ("Bearer T1") []] ∧
    Event.authCall ∉ (makeRequest { accessToken := some (.str ("T1")), tokenExpiresAt := 1000 }
        { now := 100, now2 := 101, auth := .netErr ("unused"),
          data := .resp 200 ("") .null } ("GET") ("/x") []).trace ∧
    (makeRequest { accessToken := some (.str ("T1")), tokenExpiresAt := 1000 }
        { now := 100, now2 := 101, auth := .netErr ("unused"),
          data := .resp 200 ("") .null } ("GET") ("/x") []).state =
      { accessToken := some (.str ("T1")), tokenExpiresAt := 1000 } :=
  cached_token_reused { accessToken := some (.str ("T1")), tokenExpiresAt := 1000 }
    { now := 100, now2 := 101, auth := .netErr ("unused"), data := .resp 200 ("") .null }
    (.str ("T1")) ("GET") ("/x") [] rfl (by decide) (by decide)

/-- C9: a successful auth response without an `expires_in` field stores an
absolute expiry equal to the issuance clock reading plus 36000 seconds. -/
theorem default_token_lifetime (st : ClientState) (env : Env)
    (s : Nat) (t : String) (kvs : List (String × Json)) (tok : Json)
    (husable : cachedTokenUsable st env.now = false)
    (hauth : env.auth = .resp s t (.obj kvs)) (hs : s < 400)
    (htok : List.lookup ("access_token") kvs = some tok)
    (hnoexp : List.lookup ("expires_in") kvs = none) :
    (getAccessToken st env).result = .ok tok ∧
    (getAccessToken st env).state.accessToken = some tok ∧
    (getAccessToken st env).state.tokenExpiresAt = env.now2 + 36000 := by
  rw [getAccessToken_of_stale st env husable]
  unfold refreshToken
  rw [hauth]
  dsimp only
  rw [if_neg (by omega)]
  simp [pySubscript, pyGet, htok, hnoexp, pyTimeAdd]

/-- Witness for C9: a concrete stale state and an auth body with only an
`access_token` field. -/
theorem default_token_lifetime_witness :
    (getAccessToken initialState
        { now := 100, now2 := 101,
          auth := .resp 200 ("") (.obj [("access_token", .str ("T3"))]),
          data := .netErr ("unused") }).result = .ok (.str ("T3")) ∧
    (getAccessToken initialState
        { now := 100, now2 := 101,
          auth := .resp 200 ("") (.obj [("access_token", .str ("T3"))]),
          data := .netErr ("unused") }).state.accessToken = some (.str ("T3")) ∧
    (getAccessToken initialState
        { now := 100, now2 := 101,
          auth := .resp 200 ("") (.obj [("access_token", .str ("T3"))]),
          data := .netErr ("unused") }).state.tokenExpiresAt = 101 + 36000 :=
  default_token_lifetime _ _ 200 ("") _ _ (by decide) rfl (by decide) (by decide) (by decide)

/-- C5: when the cached token is absent, falsy or within 60 seconds of
expiry, a data request performs exactly one auth call, before the data
call, and a successful auth stores the new token with its absolute
expiry. -/
theorem refresh_before_data (st : ClientState) (env : Env)
    (method endpoint : String) (params : List (String × Json))
    (s : Nat) (t : String) (kvs : List (String × Json)) (tok : Json) (expiry : Int)
    (husable : cachedTokenUsable st env.now = false)
    (hauth : env.auth = .resp s t (.obj kvs)) (hs : s < 400)
    (htok : List.lookup ("access_token") kvs = some tok)
    (hexp : pyTimeAdd env.now2 ((List.lookup ("expires_in") kvs).getD (.num 36000)) =
      .ok expiry) :
    (makeRequest st env method endpoint params).trace =
      [Event.authCall,
       Event.dataCall method (LUFTHANSA_API_BASE_URL ++ endpoint)
         ("Bearer " ++ tok.pyStr) params] ∧
    List.countP (fun e => decide (e = Event.authCall))
      (makeRequest st env method endpoint params).trace = 1 ∧
    (makeRequest st env method endpoint params).state =
      { accessToken := some tok, tokenExpiresAt := expiry } := by
  have hrt : refreshToken st env =
      { trace := [Event.authCall], result := .ok tok,
        state := { accessToken := some tok, tokenExpiresAt := expiry } } := by
    unfold refreshToken
    rw [hauth]
    dsimp only
    rw [if_neg (by omega)]
    simp [pySubscript, pyGet, htok, hexp]
  have hga := getAccessToken_of_stale st env husable
  have hres : (getAccessToken st env).result = .ok tok := by rw [hga, hrt]
  obtain ⟨h1, h2, -⟩ := makeRequest_ok st env tok method endpoint params hres
  refine ⟨?_, ?_, ?_⟩
  · rw [h1, hga, hrt]
    rfl
  · rw [h1, hga, hrt]
    rfl
  · rw [h2, hga, hrt]

/-- Witness for C5: the empty initial cache forces a refresh; the auth
body carries a token and a 3600-second lifetime. -/
theorem refresh_before_data_witness :
    (makeRequest initialState
        { now := 100, now2 := 101,
          auth := .resp 200 ("")
            (.obj [("access_token", .str ("T2")), ("expires_in", .num 3600)]),
          data := .netErr ("unused") } ("GET") ("/x") []).trace =
      [Event.authCall,
       Event.dataCall ("GET") (LUFTHANSA_API_BASE_URL ++ "/x") ("Bearer T2") []] ∧
    List.countP (fun e => decide (e = Event.authCall))
      (makeRequest initialState
        { now := 100, now2 := 101,
          auth := .resp 200 ("")
            (.obj [("access_token", .str ("T2")), ("expires_in", .num 3600)]),
          data := .netErr ("unused") } ("GET") ("/x") []).trace = 1 ∧
    (makeRequest initialState
        { now := 100, now2 := 101,
          auth := .resp 200 ("")
            (.obj [("access_token", .str ("T2")), ("expires_in", .num 3600)]),
          data := .netErr ("unused") } ("GET") ("/x") []).state =
      { accessToken := some (.str ("T2")), tokenExpiresAt := 3701 } :=
  refresh_before_data initialState
    { now := 100, now2 := 101,
      auth := .resp 200 ("")
        (.obj [("access_token", .str ("T2")), ("expires_in", .num 3600)]),
      data := .netErr ("unused") }
    ("GET") ("/x") [] 200 ("") _ (.str ("T2")) 3701
    (by decide) rfl (by decide) (by decide) (by decide)

/-- C6: on a 404 data response, `get_flight_status` returns exactly the
"Flight <n> not found for <date>" error dict and
`get_flight_status_by_route` returns exactly the empty-flights dict with
the "No flights found <o>→<d> on <date>" message; neither raises. -/
theorem not_found_results (st : ClientState) (env : Env) (tok : Json)
    (flightNumber date origin destination : String) (t : String) (body : Json)
    (htok : (getAccessToken st env).result = .ok tok)
    (hdata : env.data = .resp 404 t body) :
    (get_flight_status st env flightNumber date).result =
      .ok (.obj [("error",
        .str ("Flight " ++ flightNumber ++ " not found for " ++ date))]) ∧
    (get_flight_status_by_route st env origin destination date).result =
      .ok (.obj [("flights", emptyList),
        ("message",
          .str ("No flights found " ++ origin ++ "→" ++ destination ++ " on " ++ date))]) := by
  have h1 := makeRequest_result_httpError st env tok ("GET")
    ("/operations/flightstatus/" ++ flightNumber ++ "/" ++ date) [] 404 t body
    htok hdata (by omega) (by omega)
  have h2 := makeRequest_result_httpError st env tok ("GET")
    ("/operations/flightstatus/route/" ++ origin ++ "/" ++ destination ++ "/" ++ date)
    [] 404 t body htok hdata (by omega) (by omega)
  constructor
  · unfold get_flight_status
    dsimp only
    rw [h1]
    rfl
  · unfold get_flight_status_by_route
    dsimp only
    rw [h2]
    rfl

/-- Witness for C6: a 404 environment with the flight LH456 on 2026-02-28
and the route HAM to JFK. -/
theorem not_found_results_witness :
    (get_flight_status { accessToken := some (.str ("T1")), tokenExpiresAt := 1000 }
        { now := 100, now2 := 101, auth := .netErr ("unused"),
          data := .resp 404 ("nf") .null } ("LH456") ("2026-02-28")).result =
      .ok (.obj [("error", .str ("Flight LH456 not found for 2026-02-28"))]) ∧
    (get_flight_status_by_route { accessToken := some (.str ("T1")), tokenExpiresAt := 1000 }
        { now := 100, now2 := 101, auth := .netErr ("unused"),
          data := .resp 404 ("nf") .null } ("HAM") ("JFK") ("2026-02-28")).result =
      .ok (.obj [("flights", emptyList),
        ("message", .str ("No flights found HAM→JFK on 2026-02-28"))]) :=
  not_found_results { accessToken := some (.str ("T1")), tokenExpiresAt := 1000 }
    { now := 100, now2 := 101, auth := .netErr ("unused"), data := .resp 404 ("nf") .null }
    (.str ("T1")) ("LH456") ("2026-02-28") ("HAM") ("JFK") ("nf") .null
    (by decide) rfl

/-- C10: a 2xx response whose `FlightStatusResource.Flights.Flight` value
is absent, an empty list or otherwise falsy makes `get_flight_status`
return the "No flight data in response" error dict without raising. -/
theorem no_flight_data (st : ClientState) (env : Env) (tok : Json)
    (status : Nat) (t : String) (response v : Json) (flightNumber date : String)
    (htok : (getAccessToken st env).result = .ok tok)
    (hdata : env.data = .resp status t response) (hok : status < 400)
    (hext : extractFlights response = .ok v) (hfalsy : v.truthy = false) :
    (get_flight_status st env flightNumber date).result =
      .ok (.obj [("error", .str ("No flight data in response"))]) := by
  have hres := makeRequest_result_ok st env tok ("GET")
    ("/operations/flightstatus/" ++ flightNumber ++ "/" ++ date) [] status t response
    htok hdata (by omega)
  have hbody := parseFlightStatusBody_no_data response v hext hfalsy
  unfold get_flight_status
  dsimp only
  rw [hres]
  dsimp only
  unfold parseFlightStatus
  rw [hbody]

/-- Witness for C10: a 200 response whose `Flights` object has no `Flight`
key, so extraction defaults to the empty list. -/
theorem no_flight_data_witness :
    (get_flight_status { accessToken := some (.str ("T1")), tokenExpiresAt := 1000 }
        { now := 100, now2 := 101, auth := .netErr ("unused"),
          data := .resp 200 ("")
            (.obj [("FlightStatusResource", .obj [("Flights", .obj [])])]) }
        ("LH456") ("2026-02-28")).result =
      .ok (.obj [("error", .str ("No flight data in response"))]) :=
  no_flight_data { accessToken := some (.str ("T1")), tokenExpiresAt := 1000 }
    { now := 100, now2 := 101, auth := .netErr ("unused"),
      data := .resp 200 ("")
        (.obj [("FlightStatusResource", .obj [("Flights", .obj [])])]) }
    (.str ("T1")) 200 ("")
    (.obj [("FlightStatusResource", .obj [("Flights", .obj [])])]) emptyList
    ("LH456") ("2026-02-28")
    (by decide) rfl (by decide) (by decide) (by decide)

/-- C1: every data request in a trace of `_make_request` carries an
`Authorization: Bearer <token>` header whose token is either the cached
one, still valid with more than 60 seconds before expiry at the check, or
one obtained by a refresh that precedes the data call in the trace; under
the stated assumptions on the auth endpoint (it returns truthy tokens with
more than 60 seconds of lifetime) the token is never absent or expired at
the send-side clock reading. -/
theorem bearer_header_sound (st : ClientState) (env : Env)
    (method endpoint : String) (params : List (String × Json))
    (hauthTok : ∀ tok : Json, (refreshToken st env).result = .ok tok → tok.truthy = true)
    (hauthExp : ∀ tok : Json, (refreshToken st env).result = .ok tok →
      env.now2 < (refreshToken st env).state.tokenExpiresAt - 60) :
    ∀ m u a p, Event.dataCall m u a p ∈ (makeRequest st env method endpoint params).trace →
      ∃ tok : Json, a = "Bearer " ++ tok.pyStr ∧ tok.truthy = true ∧
        (((makeRequest st env method endpoint params).trace = [Event.dataCall m u a p] ∧
            st.accessToken = some tok ∧ env.now < st.tokenExpiresAt - 60) ∨
         ((makeRequest st env method endpoint params).trace =
              [Event.authCall, Event.dataCall m u a p] ∧
            (refreshToken st env).result = .ok tok ∧
            env.now2 <
              (makeRequest st env method endpoint params).state.tokenExpiresAt - 60)) := by
  intro m u a p hmem
  by_cases hu : cachedTokenUsable st env.now = true
  · unfold cachedTokenUsable at hu
    cases hA : st.accessToken with
    | none =>
        rw [hA] at hu
        exact absurd hu (by simp)
    | some tok =>
        rw [hA] at hu
        dsimp only at hu
        simp only [Bool.and_eq_true, decide_eq_true_eq] at hu
        obtain ⟨ht, hf⟩ := hu
        have hg := getAccessToken_of_usable st env tok hA ht hf
        have hres : (getAccessToken st env).result = .ok tok := by rw [hg]
        obtain ⟨h1, h2, -⟩ := makeRequest_ok st env tok method endpoint params hres
        rw [hg] at h1
        simp only [List.nil_append] at h1
        rw [h1] at hmem
        simp only [List.mem_singleton, Event.dataCall.injEq] at hmem
        obtain ⟨hm, hu2, ha, hp⟩ := hmem
        subst hm
        subst hu2
        subst ha
        subst hp
        exact ⟨tok, rfl, ht, Or.inl ⟨h1, rfl, hf⟩⟩
  · have hu2 : cachedTokenUsable st env.now = false := by
      cases hx : cachedTokenUsable st env.now with
      | true => exact absurd hx hu
      | false => rfl
    have hga := getAccessToken_of_stale st env hu2
    cases hres : (refreshToken st env).result with
    | error e =>
        have hres2 : (getAccessToken st env).result = .error e := by rw [hga, hres]
        have hmk := makeRequest_err st env e method endpoint params hres2
        rw [hmk] at hmem
        dsimp only at hmem
        rw [hga, refreshToken_trace] at hmem
        simp at hmem
    | ok tok =>
        have hres2 : (getAccessToken st env).result = .ok tok := by rw [hga, hres]
        obtain ⟨h1, h2, -⟩ := makeRequest_ok st env tok method endpoint params hres2
        rw [hga, refreshToken_trace] at h1
        simp only [List.cons_append, List.nil_append] at h1
        rw [h1] at hmem
        simp only [List.mem_cons, List.not_mem_nil, or_false] at hmem
        rcases hmem with hbad | hmem
        · exact absurd hbad (by simp)
        · simp only [Event.dataCall.injEq] at hmem
          obtain ⟨hm, hu3, ha, hp⟩ := hmem
          subst hm
          subst hu3
          subst ha
          subst hp
          refine ⟨tok, rfl, hauthTok tok hres, Or.inr ⟨h1, rfl, ?_⟩⟩
          rw [h2, hga]
          exact hauthExp tok hres

/-- Witness for C1: the cached-token case at a concrete state and
environment, with the auth-endpoint assumptions discharged for the
concrete refresh outcome. -/
theorem bearer_header_sound_witness :
    ∃ tok : Json, "Bearer T1" = "Bearer " ++ tok.pyStr ∧ tok.truthy = true ∧
      (((makeRequest { accessToken := some (.str ("T1")), tokenExpiresAt := 1000 }
            { now := 100, now2 := 101,
              auth := .resp 200 ("")
                (.obj [("access_token", .str ("T2")), ("expires_in", .num 3600)]),
              data := .resp 200 ("") .null } ("GET") ("/x") []).trace =
          [Event.dataCall ("GET") (LUFTHANSA_API_BASE_URL ++ "/x") ("Bearer T1") []] ∧
          ClientState.accessToken
            { accessToken := some (.str ("T1")), tokenExpiresAt := 1000 } = some tok ∧
          (100 : Int) < 1000 - 60) ∨
       ((makeRequest { accessToken := some (.str ("T1")), tokenExpiresAt := 1000 }
            { now := 100, now2 := 101,
              auth := .resp 200 ("")
                (.obj [("access_token", .str ("T2")), ("expires_in", .num 3600)]),
              data := .resp 200 ("") .null } ("GET") ("/x") []).trace =
          [Event.authCall,
           Event.dataCall ("GET") (LUFTHANSA_API_BASE_URL ++ "/x") ("Bearer T1") []] ∧
          (refreshToken { accessToken := some (.str ("T1")), tokenExpiresAt := 1000 }
            { now := 100, now2 := 101,
              auth := .resp 200 ("")
                (.obj [("access_token", .str ("T2")), ("expires_in", .num 3600)]),
              data := .resp 200 ("") .null }).result = .ok tok ∧
          (101 : Int) <
            (makeRequest { accessToken := some (.str ("T1")), tokenExpiresAt := 1000 }
              { now := 100, now2 := 101,
                auth := .resp 200 ("")
                  (.obj [("access_token", .str ("T2")), ("expires_in", .num 3600)]),
                data := .resp 200 ("") .null } ("GET") ("/x") []).state.tokenExpiresAt - 60)) :=
  bearer_header_sound { accessToken := some (.str ("T1")), tokenExpiresAt := 1000 }
    { now := 100, now2 := 101,
      auth := .resp 200 ("") (.obj [("access_token", .str ("T2")), ("expires_in", .num 3600)]),
      data := .resp 200 ("") .null } ("GET") ("/x") []
    (by
      intro tok h
      have hcomp : (refreshToken { accessToken := some (.str ("T1")), tokenExpiresAt := 1000 }
          { now := 100, now2 := 101,
            auth := .resp 200 ("")
              (.obj [("access_token", .str ("T2")), ("expires_in", .num 3600)]),
            data := .resp 200 ("") .null }).result = .ok (.str ("T2")) := by decide
      rw [hcomp] at h
      injection h with h3
      rw [← h3]
      decide)
    (by
      intro tok h
      decide)
    ("GET") (LUFTHANSA_API_BASE_URL ++ "/x") ("Bearer T1") [] (by decide)

/-- C2 counterexample: `get_arrivals` does not map a 404 response to an
empty result — the `HTTPError` propagates to the caller. -/
theorem arrivals_404_raises :
    (get_arrivals { accessToken := some (.str ("T1")), tokenExpiresAt := 1000 }
        { now := 100, now2 := 101, auth := .netErr ("unused"),
          data := .resp 404 ("nf") .null } ("FRA") ("2026-02-28T10:00") 20).result =
      .error (.httpError 404 ("nf")) := by
  decide

/-- C2 amended: `get_flight_status`, `get_flight_status_by_route` and
`get_schedules` map a 404 to their empty/not-found dicts and raise
`HTTPError` with status and body for any other 4xx or 5xx status
(400 <= status < 600, the range `raise_for_status` raises for), while
`get_arrivals` and `get_departures` raise the `HTTPError` for every 4xx
or 5xx status, 404 included; a status of 600 or above is not raised and
the body is returned. -/
theorem http_error_mapping (st : ClientState) (env : Env) (tok : Json)
    (status : Nat) (t : String) (body : Json)
    (flightNumber date origin destination airport fromTime : String)
    (limit : Int) (directFlights : Bool)
    (htok : (getAccessToken st env).result = .ok tok)
    (hdata : env.data = .resp status t body) :
    (status = 404 →
      (get_flight_status st env flightNumber date).result =
        .ok (.obj [("error",
          .str ("Flight " ++ flightNumber ++ " not found for " ++ date))]) ∧
      (get_flight_status_by_route st env origin destination date).result =
        .ok (.obj [("flights", emptyList), ("message",
          .str ("No flights found " ++ origin ++ "→" ++ destination ++ " on " ++ date))]) ∧
      (get_schedules st env origin destination date directFlights).result =
        .ok (.obj [("schedules", emptyList), ("message", .str ("No schedules found"))]) ∧
      (get_arrivals st env airport fromTime limit).result = .error (.httpError 404 t) ∧
      (get_departures st env airport fromTime limit).result = .error (.httpError 404 t)) ∧
    (400 ≤ status → status < 600 → status ≠ 404 →
      (get_flight_status st env flightNumber date).result = .error (.httpError status t) ∧
      (get_flight_status_by_route st env origin destination date).result =
        .error (.httpError status t) ∧
      (get_schedules st env origin destination date directFlights).result =
        .error (.httpError status t) ∧
      (get_arrivals st env airport fromTime limit).result = .error (.httpError status t) ∧
      (get_departures st env airport fromTime limit).result =
        .error (.httpError status t)) ∧
    (600 ≤ status →
      (get_arrivals st env airport fromTime limit).result = .ok body ∧
      (get_departures st env airport fromTime limit).result = .ok body) := by
  refine ⟨?_, ?_, ?_⟩
  · intro h404
    subst h404
    have hfs := makeRequest_result_httpError st env tok ("GET")
      ("/operations/flightstatus/" ++ flightNumber ++ "/" ++ date) [] 404 t body
      htok hdata (by omega) (by omega)
    have hrt := makeRequest_result_httpError st env tok ("GET")
      ("/operations/flightstatus/route/" ++ origin ++ "/" ++ destination ++ "/" ++ date)
      [] 404 t body htok hdata (by omega) (by omega)
    have hsc := makeRequest_result_httpError st env tok ("GET")
      ("/operations/schedules/" ++ origin ++ "/" ++ destination ++ "/" ++ date)
      [("directFlights", .bool directFlights)] 404 t body htok hdata (by omega) (by omega)
    have har := makeRequest_result_httpError st env tok ("GET")
      ("/operations/flightstatus/arrivals/" ++ airport ++ "/" ++ fromTime)
      [("limit", .num limit)] 404 t body htok hdata (by omega) (by omega)
    have hdp := makeRequest_result_httpError st env tok ("GET")
      ("/operations/flightstatus/departures/" ++ airport ++ "/" ++ fromTime)
      [("limit", .num limit)] 404 t body htok hdata (by omega) (by omega)
    refine ⟨?_, ?_, ?_, ?_, ?_⟩
    · unfold get_flight_status
      dsimp only
      rw [hfs]
      rfl
    · unfold get_flight_status_by_route
      dsimp only
      rw [hrt]
      rfl
    · unfold get_schedules
      dsimp only
      rw [hsc]
      rfl
    · unfold get_arrivals
      dsimp only
      exact har
    · unfold get_departures
      dsimp only
      exact hdp
  · intro h4 h6 hne
    have hfs := makeRequest_result_httpError st env tok ("GET")
      ("/operations/flightstatus/" ++ flightNumber ++ "/" ++ date) [] status t body
      htok hdata h4 h6
    have hrt := makeRequest_result_httpError st env tok ("GET")
      ("/operations/flightstatus/route/" ++ origin ++ "/" ++ destination ++ "/" ++ date)
      [] status t body htok hdata h4 h6
    have hsc := makeRequest_result_httpError st env tok ("GET")
      ("/operations/schedules/" ++ origin ++ "/" ++ destination ++ "/" ++ date)
      [("directFlights", .bool directFlights)] status t body htok hdata h4 h6
    have har := makeRequest_result_httpError st env tok ("GET")
      ("/operations/flightstatus/arrivals/" ++ airport ++ "/" ++ fromTime)
      [("limit", .num limit)] status t body htok hdata h4 h6
    have hdp := makeRequest_result_httpError st env tok ("GET")
      ("/operations/flightstatus/departures/" ++ airport ++ "/" ++ fromTime)
      [("limit", .num limit)] status t body htok hdata h4 h6
    refine ⟨?_, ?_, ?_, ?_, ?_⟩
    · unfold get_flight_status
      dsimp only
      rw [hfs]
      dsimp only
      rw [if_neg hne]
      exact hfs
    · unfold get_flight_status_by_route
      dsimp only
      rw [hrt]
      dsimp only
      rw [if_neg hne]
      exact hrt
    · unfold get_schedules
      dsimp only
      rw [hsc]
      dsimp only
      rw [if_neg hne]
      exact hsc
    · unfold get_arrivals
      dsimp only
      exact har
    · unfold get_departures
      dsimp only
      exact hdp
  · intro h6
    have har := makeRequest_result_ok st env tok ("GET")
      ("/operations/flightstatus/arrivals/" ++ airport ++ "/" ++ fromTime)
      [("limit", .num limit)] status t body htok hdata (by omega)
    have hdp := makeRequest_result_ok st env tok ("GET")
      ("/operations/flightstatus/departures/" ++ airport ++ "/" ++ fromTime)
      [("limit", .num limit)] status t body htok hdata (by omega)
    constructor
    · unfold get_arrivals
      dsimp only
      exact har
    · unfold get_departures
      dsimp only
      exact hdp

/-- Witness for C2 amended: the 404 branch at a concrete environment,
projected at `get_flight_status`. -/
theorem http_error_mapping_witness :
    (get_flight_status { accessToken := some (.str ("T1")), tokenExpiresAt := 1000 }
        { now := 100, now2 := 101, auth := .netErr ("unused"),
          data := .resp 404 ("nf") .null } ("LH456") ("2026-02-28")).result =
      .ok (.obj [("error", .str ("Flight LH456 not found for 2026-02-28"))]) :=
  ((http_error_mapping { accessToken := some (.str ("T1")), tokenExpiresAt := 1000 }
      { now := 100, now2 := 101, auth := .netErr ("unused"), data := .resp 404 ("nf") .null }
      (.str ("T1")) 404 ("nf") .null ("LH456") ("2026-02-28") ("HAM") ("JFK")
      ("FRA") ("2026-02-28T10:00") 20 false (by decide) rfl).1 rfl).1

/-- C3 counterexample: a successful response whose `Flights.Flight` field
is the string "x" makes the parse raise `AttributeError` (a string has no
`get` method), and that parsing exception reaches the caller of
`get_flight_status` instead of being converted into an error dict. -/
theorem parse_exception_escapes :
    (get_flight_status { accessToken := some (.str ("T1")), tokenExpiresAt := 1000 }
        { now := 100, now2 := 101, auth := .netErr ("unused"),
          data := .resp 200 ("")
            (.obj [("FlightStatusResource",
              .obj [("Flights", .obj [("Flight", .str ("x"))])])]) }
        ("LH456") ("2026-02-28")).result =
      .error (.pyErr (.attrError ("\x27str\x27 object has no attribute \x27get\x27"))) := by
  decide

/-- C3 amended: parsing failures raising `KeyError` or `TypeError` are
caught — `get_flight_status` then returns `\x7berror, raw: response\x7d`
while `get_flight_status_by_route` returns `\x7bflights: [], error\x7d`
with no raw field — but failures raising any other exception, such as the
`AttributeError` produced when a field that should be a dict is not,
propagate to the caller. -/
theorem parse_error_handling (st : ClientState) (env : Env) (tok : Json)
    (status : Nat) (t : String) (response : Json)
    (flightNumber date origin destination : String)
    (htok : (getAccessToken st env).result = .ok tok)
    (hdata : env.data = .resp status t response) (hok : status < 400) :
    (∀ e : PyErr, parseFlightStatusBody response = .error e → e.isCaught = true →
      (get_flight_status st env flightNumber date).result =
        .ok (.obj [("error", .str ("Failed to parse flight status: " ++ e.pyMsg)),
                   ("raw", response)])) ∧
    (∀ e : PyErr, parseRouteFlightsBody response = .error e → e.isCaught = true →
      (get_flight_status_by_route st env origin destination date).result =
        .ok (.obj [("flights", emptyList), ("error", .str e.pyMsg)])) ∧
    (∀ m : String, parseFlightStatusBody response = .error (.attrError m) →
      (get_flight_status st env flightNumber date).result =
        .error (.pyErr (.attrError m))) ∧
    (∀ m : String, parseRouteFlightsBody response = .error (.attrError m) →
      (get_flight_status_by_route st env origin destination date).result =
        .error (.pyErr (.attrError m))) := by
  have hfs := makeRequest_result_ok st env tok ("GET")
    ("/operations/flightstatus/" ++ flightNumber ++ "/" ++ date) [] status t response
    htok hdata (by omega)
  have hrt := makeRequest_result_ok st env tok ("GET")
    ("/operations/flightstatus/route/" ++ origin ++ "/" ++ destination ++ "/" ++ date)
    [] status t response htok hdata (by omega)
  refine ⟨?_, ?_, ?_, ?_⟩
  · intro e hbody hc
    unfold get_flight_status
    dsimp only
    rw [hfs]
    dsimp only
    unfold parseFlightStatus
    rw [hbody]
    cases e with
    | attrError m => simp [PyErr.isCaught] at hc
    | keyError m => rfl
    | typeError m => rfl
  · intro e hbody hc
    unfold get_flight_status_by_route
    dsimp only
    rw [hrt]
    dsimp only
    unfold parseRouteFlights
    rw [hbody]
    cases e with
    | attrError m => simp [PyErr.isCaught] at hc
    | keyError m => rfl
    | typeError m => rfl
  · intro m hbody
    unfold get_flight_status
    dsimp only
    rw [hfs]
    dsimp only
    unfold parseFlightStatus
    rw [hbody]
  · intro m hbody
    unfold get_flight_status_by_route
    dsimp only
    rw [hrt]
    dsimp only
    unfold parseRouteFlights
    rw [hbody]

/-- Witness for C3 amended: a response whose `FlightStatus.Code` is a dict
is unhashable, so the table lookup raises `TypeError`, which is caught and
converted into the `\x7berror, raw\x7d` dict. -/
theorem parse_error_handling_witness :
    (get_flight_status { accessToken := some (.str ("T1")), tokenExpiresAt := 1000 }
        { now := 100, now2 := 101, auth := .netErr ("unused"),
          data := .resp 200 ("")
            (.obj [("FlightStatusResource", .obj [("Flights", .obj [("Flight",
              .obj [("FlightStatus", .obj [("Code", .obj [("a", .null)])])])])])]) }
        ("LH456") ("2026-02-28")).result =
      .ok (.obj [("error",
        .str ("Failed to parse flight status: unhashable type: \x27dict\x27")),
        ("raw", .obj [("FlightStatusResource", .obj [("Flights", .obj [("Flight",
          .obj [("FlightStatus", .obj [("Code", .obj [("a", .null)])])])])])])]) :=
  (parse_error_handling { accessToken := some (.str ("T1")), tokenExpiresAt := 1000 }
      { now := 100, now2 := 101, auth := .netErr ("unused"),
        data := .resp 200 ("")
          (.obj [("FlightStatusResource", .obj [("Flights", .obj [("Flight",
            .obj [("FlightStatus", .obj [("Code", .obj [("a", .null)])])])])])]) }
      (.str ("T1")) 200 ("")
      (.obj [("FlightStatusResource", .obj [("Flights", .obj [("Flight",
        .obj [("FlightStatus", .obj [("Code", .obj [("a", .null)])])])])])])
      ("LH456") ("2026-02-28") ("HAM") ("JFK")
      (by decide) rfl (by decide)).1
    (.typeError ("unhashable type: \x27dict\x27")) (by decide) (by decide)

/-- C7 counterexample: with the empty flight object, a single-object
`Flights.Flight` yields the "No flight data in response" error (the empty
dict is falsy) while the one-element list containing it parses, so the two
results differ. -/
theorem single_vs_list_counterexample :
    (get_flight_status { accessToken := some (.str ("T1")), tokenExpiresAt := 1000 }
        { now := 100, now2 := 101, auth := .netErr ("unused"),
          data := .resp 200 ("") (wrapFlight (.obj [])) } ("LH400") ("2026-02-28")).result ≠
    (get_flight_status { accessToken := some (.str ("T1")), tokenExpiresAt := 1000 }
        { now := 100, now2 := 101, auth := .netErr ("unused"),
          data := .resp 200 ("") (wrapFlight (.arr [.obj []])) }
        ("LH400") ("2026-02-28")).result := by
  decide

/-- C7 amended: for every non-empty flight object, `_parse_route_flights`
gives identical results on the single object and its one-element list, and
`_parse_flight_status` does too whenever the flight parses without a
caught (`KeyError`/`TypeError`) failure — in the caught case the two
`raw` fields differ because they embed the two distinct responses. -/
theorem single_vs_list_normalization (kvs : List (String × Json)) (hne : kvs ≠ []) :
    parseRouteFlights (wrapFlight (.obj kvs)) =
      parseRouteFlights (wrapFlight (.arr [.obj kvs])) ∧
    ((∀ e : PyErr, parseFlightStatusBody (wrapFlight (.obj kvs)) = .error e →
        e.isCaught = false) →
      parseFlightStatus (wrapFlight (.obj kvs)) =
        parseFlightStatus (wrapFlight (.arr [.obj kvs]))) := by
  cases kvs with
  | nil => exact absurd rfl hne
  | cons hd tl =>
      have hb : parseFlightStatusBody (wrapFlight (.obj (hd :: tl))) =
          parseFlightStatusBody (wrapFlight (.arr [.obj (hd :: tl)])) := rfl
      have hrb : parseRouteFlightsBody (wrapFlight (.obj (hd :: tl))) =
          parseRouteFlightsBody (wrapFlight (.arr [.obj (hd :: tl)])) := rfl
      constructor
      · unfold parseRouteFlights
        rw [hrb]
      · intro hnc
        unfold parseFlightStatus
        rw [hb]
        cases he : parseFlightStatusBody (wrapFlight (.arr [.obj (hd :: tl)])) with
        | ok v => rfl
        | error e =>
            have hcf := hnc e (by rw [hb, he])
            cases e with
            | attrError m => rfl
            | keyError m => simp [PyErr.isCaught] at hcf
            | typeError m => simp [PyErr.isCaught] at hcf

/-- Witness for C7 amended: a concrete one-entry flight object. -/
theorem single_vs_list_normalization_witness :
    parseRouteFlights (wrapFlight
        (.obj [("MarketingCarrier", .obj [("AirlineID", .str ("LH"))])])) =
      parseRouteFlights (wrapFlight
        (.arr [.obj [("MarketingCarrier", .obj [("AirlineID", .str ("LH"))])]])) :=
  (single_vs_list_normalization
    [("MarketingCarrier", .obj [("AirlineID", .str ("LH"))])] (by decide)).1

end TravelBuddy
